import Mathlib

/-!
Verification of the core data pipeline of the SSP1 education-simulation app
(`Team_Projects/app.py`): scenario-label and age-group-label resolution,
extraction of the merged 2025/2035 slice (`load_mys`), the slider adjustment
(`delta`), and the color-range computation (`baseline_min` / `baseline_max`).

Modelling conventions:
- Categorical values of the `scenario` and `age` columns may be integers or
  strings in the source data, so they are modelled by the sum type `CatVal`;
  Python `str(a)` is `CatVal.toText`.
- `metric_value` (`mys`) and the slider delta are modelled as exact rationals,
  the idealized arithmetic the spec describes (no rounding anywhere).
- The pandas frame is a list of rows; `.unique()` is first-occurrence
  deduplication in encounter order; `merge(..., how="inner")` is the
  left-order-preserving inner join.
- The `ValueError`s raised in `load_mys` are modelled by the constructors of
  `LoadError`, carrying the payloads the messages interpolate: the distinct
  scenario values, the distinct age values, or the sorted available years.
  The spec names the first two `ResolutionError` and the last two
  `ExtractionError`.
-/

namespace DataDive

/-- A categorical cell value: the raw CSV may encode scenario/age labels as
integers or as strings. -/
inductive CatVal where
  | intVal (n : Int)
  | strVal (s : String)
deriving DecidableEq, Repr

/-- Python `str(a)` applied to a categorical value. -/
def CatVal.toText : CatVal → String
  | .intVal n => toString n
  | .strVal s => s

/-- Character-list version of `String.isPrefixOf` (used to model Python
substring containment `pat in s`). -/
def startsWithChars : List Char → List Char → Bool
  | [], _ => true
  | _ :: _, [] => false
  | p :: ps, c :: cs => p == c && startsWithChars ps cs

/-- Does `pat` occur as a contiguous substring of the character list? -/
def hasSubChars (pat : List Char) : List Char → Bool
  | [] => startsWithChars pat []
  | c :: cs => startsWithChars pat (c :: cs) || hasSubChars pat cs

/-- Python `pat in s` for strings. -/
def strHasSub (s pat : String) : Bool := hasSubChars pat.toList s.toList

/-- One row of the raw projections table `WD_MYS_Projections.csv`
(after the year column is normalized to integers). -/
structure Row where
  iso3 : String
  scenario : CatVal
  sex : String
  age : CatVal
  year : Int
  mys : ℚ
deriving DecidableEq, Repr

/-- pandas `Series.unique()`: distinct values in first-encounter order. -/
def uniques {α : Type} [DecidableEq α] (xs : List α) : List α :=
  xs.foldl (fun acc x => if x ∈ acc then acc else acc ++ [x]) []

/-- Scenario-label detection of `load_mys`: `if 1 in scen_vals ... elif "SSP1"
in scen_vals ... elif "1" in scen_vals ...`, else no label. -/
def detectSSP1 (scenVals : List CatVal) : Option CatVal :=
  if CatVal.intVal 1 ∈ scenVals then some (CatVal.intVal 1)
  else if CatVal.strVal "SSP1" ∈ scenVals then some (CatVal.strVal "SSP1")
  else if CatVal.strVal "1" ∈ scenVals then some (CatVal.strVal "1")
  else none

/-- The primary youth patterns: `"15-24" in s or "15_24" in s or "1524" in s`. -/
def isYouthPrimary (a : CatVal) : Bool :=
  strHasSub a.toText "15-24" || strHasSub a.toText "15_24" || strHasSub a.toText "1524"

/-- The fallback youth pattern: `"15" in s`. -/
def isYouthFallback (a : CatVal) : Bool := strHasSub a.toText "15"

/-- The `youth_candidates` list of `load_mys`: all distinct age values matching
a primary pattern; if none, all distinct age values matching the fallback. -/
def youth_candidates (ageVals : List CatVal) : List CatVal :=
  let primary := ageVals.filter isYouthPrimary
  if primary.isEmpty then ageVals.filter isYouthFallback else primary

/-- The selection `youth_age = youth_candidates[0]`, when the candidate list is non-empty. -/
def detectYouth (ageVals : List CatVal) : Option CatVal :=
  (youth_candidates ageVals).head?

/-- The slice filter of `load_mys`:
`df[(df.scenario == ssp1_label) & (df.sex == "Both") & (df.age == youth_age)]`. -/
def sliceFilter (rows : List Row) (scen age : CatVal) : List Row :=
  rows.filter (fun r => r.scenario == scen && r.sex == "Both" && r.age == age)

/-- Insert an integer into a (sorted) list, keeping order. -/
def insSorted (n : Int) : List Int → List Int
  | [] => [n]
  | m :: ms => if n ≤ m then n :: m :: ms else m :: insSorted n ms

/-- Insertion sort, modelling Python `sorted(...)` on integers. -/
def sortInts (xs : List Int) : List Int := xs.foldr insSorted []

/-- The years of the slice: `years_available = sorted(df_ssp1["year"].unique())`. -/
def availableYears (slice : List Row) : List Int :=
  sortInts (uniques (slice.map Row.year))

/-- The yearly projection `df_ssp1[df_ssp1.year == y][["iso3", "mys"]]`: the per-country
projection of the slice at one year. -/
def projectYear (slice : List Row) (y : Int) : List (String × ℚ) :=
  (slice.filter (fun r => r.year == y)).map (fun r => (r.iso3, r.mys))

/-- One row of the merged 2025/2035 table returned by `load_mys`. -/
structure Merged where
  iso3 : String
  mys_2025 : ℚ
  mys_2035 : ℚ
deriving DecidableEq, Repr

/-- pandas `df_2025.merge(df_2035, on="iso3", how="inner")`: for each left row
in order, one output row per right row with the same key, in right order. -/
def mergeInner (l r : List (String × ℚ)) : List Merged :=
  l.flatMap (fun a => (r.filter (fun b => b.1 == a.1)).map (fun b => ⟨a.1, a.2, b.2⟩))

/-- The failure modes of `load_mys`, with the payloads its `ValueError`
messages interpolate. The spec calls the first two `ResolutionError` and the
last two `ExtractionError`. -/
inductive LoadError where
  | resolutionScenario (observed : List CatVal)
  | resolutionAge (observed : List CatVal)
  | missingYears (available : List Int)
  | noOverlap
deriving DecidableEq, Repr

/-- The extraction stage of `load_mys`, given the two resolved labels: filter
the slice, check that 2025 and 2035 are among its years, build the two yearly
projections, inner-join them, and fail if the join is empty. -/
def extract (rows : List Row) (scen age : CatVal) : Except LoadError (List Merged) :=
  let slice := sliceFilter rows scen age
  let yrs := availableYears slice
  if 2025 ∉ yrs ∨ 2035 ∉ yrs then .error (.missingYears yrs)
  else
    let m := mergeInner (projectYear slice 2025) (projectYear slice 2035)
    if m = [] then .error .noOverlap else .ok m

/-- The whole of `load_mys`: resolve the scenario label, resolve the youth age
group, then extract; returns the merged table together with `youth_age`. -/
def load_mys (rows : List Row) : Except LoadError (List Merged × CatVal) :=
  match detectSSP1 (uniques (rows.map Row.scenario)) with
  | none => .error (.resolutionScenario (uniques (rows.map Row.scenario)))
  | some ssp1 =>
    match detectYouth (uniques (rows.map Row.age)) with
    | none => .error (.resolutionAge (uniques (rows.map Row.age)))
    | some youth => (extract rows ssp1 youth).map (fun m => (m, youth))

/-- One row of the adjusted view: the merged columns plus
`mys_2035_sim` and `delta_2035_2025`. -/
structure AdjRow where
  iso3 : String
  mys_2025 : ℚ
  mys_2035 : ℚ
  mys_2035_sim : ℚ
  delta_2035_2025 : ℚ
deriving DecidableEq, Repr

/-- The slider adjustment: `df["mys_2035_sim"] = df["mys_2035"] + delta` and
`df["delta_2035_2025"] = df["mys_2035_sim"] - df["mys_2025"]`. -/
def adjust (t : List Merged) (delta : ℚ) : List AdjRow :=
  t.map (fun r =>
    ⟨r.iso3, r.mys_2025, r.mys_2035, r.mys_2035 + delta, r.mys_2035 + delta - r.mys_2025⟩)

/-- pandas `Series.min()`: `none` on an empty column. -/
def colMin (xs : List ℚ) : Option ℚ :=
  xs.foldl (fun acc x => match acc with | none => some x | some m => some (min m x)) none

/-- pandas `Series.max()`: `none` on an empty column. -/
def colMax (xs : List ℚ) : Option ℚ :=
  xs.foldl (fun acc x => match acc with | none => some x | some m => some (max m x)) none

/-- The color range `baseline_min = min(df["mys_2025"].min(), df["mys_2035"].min())` and
`baseline_max = max(...)`, computed on the adjusted frame (whose `mys_2025`
and `mys_2035` columns are the unadjusted ones). -/
def baselineRange (v : List AdjRow) : Option ℚ × Option ℚ :=
  (match colMin (v.map AdjRow.mys_2025), colMin (v.map AdjRow.mys_2035) with
    | some a, some b => some (min a b)
    | _, _ => none,
   match colMax (v.map AdjRow.mys_2025), colMax (v.map AdjRow.mys_2035) with
    | some a, some b => some (max a b)
    | _, _ => none)

/-- The same range formulas read directly off the unadjusted merged table. -/
def baselineRangeOfMerged (t : List Merged) : Option ℚ × Option ℚ :=
  (match colMin (t.map Merged.mys_2025), colMin (t.map Merged.mys_2035) with
    | some a, some b => some (min a b)
    | _, _ => none,
   match colMax (t.map Merged.mys_2025), colMax (t.map Merged.mys_2035) with
    | some a, some b => some (max a b)
    | _, _ => none)

/-- Spec-worded slice filter, for comparison with `sliceFilter`: the spec's
§4.2 filters on `sex == "both"` (lower case), where the code uses `"Both"`. -/
def sliceFilterSpec (rows : List Row) (scen age : CatVal) : List Row :=
  rows.filter (fun r => r.scenario == scen && r.sex == "both" && r.age == age)

/-- Round a rational to the nearest integer, ties to even (the IEEE-754
default rounding applied to a significand-scaled value). -/
def roundHalfEven (x : ℚ) : ℤ :=
  if x - ⌊x⌋ < 1 / 2 then ⌊x⌋
  else if 1 / 2 < x - ⌊x⌋ then ⌊x⌋ + 1
  else if ⌊x⌋ % 2 = 0 then ⌊x⌋ else ⌊x⌋ + 1

/-- Round a rational to IEEE-754 binary64: keep 53 significant bits, round to
nearest, ties to even. Normal range only — subnormal underflow and overflow
to infinity are not modelled, which is faithful for the magnitudes handled
here (years of schooling and slider deltas). -/
def floatRound (q : ℚ) : ℚ :=
  if q = 0 then 0
  else (roundHalfEven (q / (2 : ℚ) ^ (Int.log 2 |q| - 52)) : ℚ) *
    (2 : ℚ) ^ (Int.log 2 |q| - 52)

/-- IEEE-754 binary64 addition (numpy float64 `+`): the exact sum, correctly
rounded. -/
def floatAdd (a b : ℚ) : ℚ := floatRound (a + b)

/-- IEEE-754 binary64 subtraction (numpy float64 `-`): the exact difference,
correctly rounded. -/
def floatSub (a b : ℚ) : ℚ := floatRound (a - b)

/-- The slider adjustment as the program actually computes it: the two column
operations of app.py lines 134 and 137 performed in numpy float64 arithmetic
(`adjust` above idealizes them as exact rational arithmetic). -/
def adjustFloat (t : List Merged) (delta : ℚ) : List AdjRow :=
  t.map (fun r =>
    ⟨r.iso3, r.mys_2025, r.mys_2035, floatAdd r.mys_2035 delta,
      floatSub (floatAdd r.mys_2035 delta) r.mys_2025⟩)

/-- The binary64 value nearest 0.1: `3602879701896397 * 2 ^ (-55)`. -/
def dbl01 : ℚ := 3602879701896397 / 36028797018963968

/-- The binary64 value nearest 0.2: `3602879701896397 * 2 ^ (-54)`. -/
def dbl02 : ℚ := 3602879701896397 / 18014398509481984

/-- The binary64 value nearest 0.3: `5404319552844595 * 2 ^ (-54)`. -/
def dbl03 : ℚ := 5404319552844595 / 18014398509481984

/-- A one-row resolved table whose far-year value is the double nearest 0.1. -/
def c8Table : List Merged := [⟨"A", 0, dbl01⟩]

/-! Shared lemmas about the embedding. -/

theorem mem_foldl_uniques {α : Type} [DecidableEq α] (xs : List α) (acc : List α) (a : α) :
    a ∈ xs.foldl (fun acc x => if x ∈ acc then acc else acc ++ [x]) acc ↔
      a ∈ acc ∨ a ∈ xs := by
  induction xs generalizing acc with
  | nil => simp
  | cons x xs ih =>
    simp only [List.foldl_cons, ih]
    by_cases hx : x ∈ acc
    · simp only [if_pos hx, List.mem_cons]
      constructor
      · rintro (h | h)
        · exact Or.inl h
        · exact Or.inr (Or.inr h)
      · rintro (h | h | h)
        · exact Or.inl h
        · exact Or.inl (h ▸ hx)
        · exact Or.inr h
    · simp only [if_neg hx, List.mem_append, List.mem_singleton, List.mem_cons]
      tauto

theorem mem_uniques {α : Type} [DecidableEq α] (xs : List α) (a : α) :
    a ∈ uniques xs ↔ a ∈ xs := by
  simp [uniques, mem_foldl_uniques]

theorem mem_insSorted (n a : Int) (xs : List Int) :
    a ∈ insSorted n xs ↔ a = n ∨ a ∈ xs := by
  induction xs with
  | nil => simp [insSorted]
  | cons m ms ih =>
    simp only [insSorted]
    by_cases h : n ≤ m
    · simp [if_pos h]
    · simp only [if_neg h, List.mem_cons, ih]
      tauto

theorem mem_sortInts (xs : List Int) (a : Int) : a ∈ sortInts xs ↔ a ∈ xs := by
  induction xs with
  | nil => simp [sortInts]
  | cons x xs ih =>
    simp only [sortInts, List.foldr_cons] at ih ⊢
    rw [mem_insSorted]
    simp [ih]

theorem mem_availableYears (slice : List Row) (y : Int) :
    y ∈ availableYears slice ↔ ∃ r ∈ slice, r.year = y := by
  rw [availableYears, mem_sortInts, mem_uniques, List.mem_map]

theorem projectYear_eq_nil (slice : List Row) (y : Int)
    (h : ∀ r ∈ slice, r.year ≠ y) : projectYear slice y = [] := by
  rw [projectYear, List.map_eq_nil_iff, List.filter_eq_nil_iff]
  intro r hr
  simpa using h r hr

theorem mergeInner_nil_left (r : List (String × ℚ)) : mergeInner [] r = [] := rfl

theorem mem_mergeInner (l r : List (String × ℚ)) (m : Merged) :
    m ∈ mergeInner l r ↔
      ∃ a ∈ l, ∃ b ∈ r, b.1 = a.1 ∧ m = ⟨a.1, a.2, b.2⟩ := by
  simp only [mergeInner, List.mem_flatMap, List.mem_map, List.mem_filter, beq_iff_eq]
  constructor
  · rintro ⟨a, ha, b, ⟨hb, hba⟩, hm⟩
    exact ⟨a, ha, b, hb, hba, hm.symm⟩
  · rintro ⟨a, ha, b, hb, hba, hm⟩
    exact ⟨a, ha, b, ⟨hb, hba⟩, hm.symm⟩

theorem mergeInner_iso3_mem (l r : List (String × ℚ)) (c : String) :
    (∃ m ∈ mergeInner l r, m.iso3 = c) ↔
      (∃ p ∈ l, p.1 = c) ∧ (∃ q ∈ r, q.1 = c) := by
  constructor
  · rintro ⟨m, hm, hc⟩
    rw [mem_mergeInner] at hm
    obtain ⟨a, ha, b, hb, hba, hm⟩ := hm
    subst hm
    exact ⟨⟨a, ha, hc⟩, ⟨b, hb, hba.trans hc⟩⟩
  · rintro ⟨⟨p, hp, hpc⟩, ⟨q, hq, hqc⟩⟩
    refine ⟨⟨p.1, p.2, q.2⟩, ?_, hpc⟩
    rw [mem_mergeInner]
    exact ⟨p, hp, q, hq, hqc.trans hpc.symm, rfl⟩

theorem mergeInner_pairs (l r : List (String × ℚ)) (m : Merged)
    (hm : m ∈ mergeInner l r) :
    (m.iso3, m.mys_2025) ∈ l ∧ (m.iso3, m.mys_2035) ∈ r := by
  rw [mem_mergeInner] at hm
  obtain ⟨a, ha, b, hb, hba, hm⟩ := hm
  subst hm
  constructor
  · simpa using ha
  · have : (a.1, b.2) = b := by
      rw [← hba]
    rw [show (Merged.mk a.1 a.2 b.2).iso3 = a.1 from rfl]
    simpa [this] using hb

theorem adjust_cols (t : List Merged) (d : ℚ) :
    (adjust t d).map AdjRow.mys_2025 = t.map Merged.mys_2025 ∧
      (adjust t d).map AdjRow.mys_2035 = t.map Merged.mys_2035 := by
  constructor <;> simp [adjust, List.map_map, Function.comp]

theorem floatRound_eval (q : ℚ) (e n : ℤ)
    (hq : 0 < q)
    (hlow : (2 : ℚ) ^ e ≤ q) (hhigh : q < (2 : ℚ) ^ (e + 1))
    (hfl : (n : ℚ) ≤ q / (2 : ℚ) ^ (e - 52))
    (hfh : q / (2 : ℚ) ^ (e - 52) < n + 1) :
    floatRound q =
      ((if q / (2 : ℚ) ^ (e - 52) - (n : ℚ) < 1 / 2 then n
        else if 1 / 2 < q / (2 : ℚ) ^ (e - 52) - (n : ℚ) then n + 1
        else if n % 2 = 0 then n else n + 1 : ℤ) : ℚ) * (2 : ℚ) ^ (e - 52) := by
  have hlog : Int.log 2 |q| = e := by
    rw [abs_of_pos hq]
    have h1 : e ≤ Int.log 2 q := by
      rw [← Int.zpow_le_iff_le_log (by norm_num) hq]
      exact_mod_cast hlow
    have h2 : Int.log 2 q < e + 1 := by
      rw [← Int.lt_zpow_iff_log_lt (by norm_num) hq]
      exact_mod_cast hhigh
    omega
  have hfloor : ⌊q / (2 : ℚ) ^ (e - 52)⌋ = n :=
    Int.floor_eq_iff.mpr ⟨hfl, by exact_mod_cast hfh⟩
  rw [floatRound, if_neg hq.ne', roundHalfEven, hlog, hfloor]

theorem floatAdd_02_03 : floatAdd dbl02 dbl03 = 1 / 2 := by
  rw [floatAdd, floatRound_eval (dbl02 + dbl03) (-1) 4503599627370496] <;>
    norm_num [dbl02, dbl03]

theorem floatAdd_01_half :
    floatAdd dbl01 (2⁻¹ : ℚ) = 5404319552844595 / 9007199254740992 := by
  rw [floatAdd, floatRound_eval (dbl01 + (2⁻¹ : ℚ)) (-1) 5404319552844595] <;>
    norm_num [dbl01]

theorem floatAdd_01_02 :
    floatAdd dbl01 dbl02 = 1351079888211149 / 4503599627370496 := by
  rw [floatAdd, floatRound_eval (dbl01 + dbl02) (-2) 5404319552844595] <;>
    norm_num [dbl01, dbl02]

theorem floatAdd_0102_03 :
    floatAdd (1351079888211149 / 4503599627370496) dbl03 =
      5404319552844596 / 9007199254740992 := by
  rw [floatAdd,
    floatRound_eval (1351079888211149 / 4503599627370496 + dbl03) (-1) 5404319552844595] <;>
    norm_num [dbl03]

/-! Claim theorems. -/

/-- C1: scenario label resolution is a strict first-match priority over the
distinct scenario values: integer `1` first, then string `"SSP1"`, then string
`"1"`; if none is present, `load_mys` fails with the resolution error carrying
the distinct scenario values observed. -/
theorem scenario_label_priority :
    (∀ vals : List CatVal, CatVal.intVal 1 ∈ vals →
        detectSSP1 vals = some (CatVal.intVal 1)) ∧
    (∀ vals : List CatVal, CatVal.intVal 1 ∉ vals → CatVal.strVal "SSP1" ∈ vals →
        detectSSP1 vals = some (CatVal.strVal "SSP1")) ∧
    (∀ vals : List CatVal, CatVal.intVal 1 ∉ vals → CatVal.strVal "SSP1" ∉ vals →
        CatVal.strVal "1" ∈ vals → detectSSP1 vals = some (CatVal.strVal "1")) ∧
    (∀ vals : List CatVal, CatVal.intVal 1 ∉ vals → CatVal.strVal "SSP1" ∉ vals →
        CatVal.strVal "1" ∉ vals → detectSSP1 vals = none) ∧
    (∀ rows : List Row, detectSSP1 (uniques (rows.map Row.scenario)) = none →
        load_mys rows = .error (.resolutionScenario (uniques (rows.map Row.scenario)))) := by
  refine ⟨?_, ?_, ?_, ?_, ?_⟩
  · intro vals h; simp [detectSSP1, h]
  · intro vals h1 h2; simp [detectSSP1, h1, h2]
  · intro vals h1 h2 h3; simp [detectSSP1, h1, h2, h3]
  · intro vals h1 h2 h3; simp [detectSSP1, h1, h2, h3]
  · intro rows h; simp [load_mys, h]

/-- C1 witness: with both the integer `1` and the string `"SSP1"` present, the
integer `1` is selected. -/
theorem scenario_label_priority_witness :
    detectSSP1 [CatVal.strVal "SSP1", CatVal.intVal 1] = some (CatVal.intVal 1) :=
  scenario_label_priority.1 _ (by decide)

/-- C2: age-group resolution collects, in encounter order, the distinct age
values whose textual form contains "15-24", "15_24" or "1524", and picks the
first; if none match, it collects those containing "15" and picks the first;
if still none, `load_mys` fails with the resolution error carrying the
distinct age values observed (the scenario label having resolved first). -/
theorem youth_label_resolution :
    (∀ vals : List CatVal, vals.filter isYouthPrimary ≠ [] →
        detectYouth vals = (vals.filter isYouthPrimary).head?) ∧
    (∀ vals : List CatVal, vals.filter isYouthPrimary = [] →
        detectYouth vals = (vals.filter isYouthFallback).head?) ∧
    (∀ vals : List CatVal, vals.filter isYouthPrimary = [] →
        vals.filter isYouthFallback = [] → detectYouth vals = none) ∧
    (∀ rows : List Row, ∀ s : CatVal,
        detectSSP1 (uniques (rows.map Row.scenario)) = some s →
        detectYouth (uniques (rows.map Row.age)) = none →
        load_mys rows = .error (.resolutionAge (uniques (rows.map Row.age)))) := by
  refine ⟨?_, ?_, ?_, ?_⟩
  · intro vals h
    simp [detectYouth, youth_candidates, List.isEmpty_iff, h]
  · intro vals h
    simp [detectYouth, youth_candidates, List.isEmpty_iff, h]
  · intro vals h1 h2
    simp [detectYouth, youth_candidates, List.isEmpty_iff, h1, h2]
  · intro rows s hs hy
    simp [load_mys, hs, hy]

/-- C2 witness: for distinct age values `"0-14"`, `"25-64"`, `"65+"`, `"15+"`,
none matches the primary patterns, and the fallback selects `"15+"`. -/
theorem youth_label_resolution_witness :
    detectYouth [CatVal.strVal "0-14", CatVal.strVal "25-64",
      CatVal.strVal "65+", CatVal.strVal "15+"] = some (CatVal.strVal "15+") := by
  rw [youth_label_resolution.2.1 _ (by decide)]
  decide

/-- Test table for the join behavior: near-year countries A, B, C and
far-year countries B, C, D, in the code's sex spelling `"Both"`. -/
def c3Rows : List Row :=
  [⟨"A", CatVal.intVal 1, "Both", CatVal.strVal "15-24", 2025, 1⟩,
   ⟨"B", CatVal.intVal 1, "Both", CatVal.strVal "15-24", 2025, 2⟩,
   ⟨"C", CatVal.intVal 1, "Both", CatVal.strVal "15-24", 2025, 3⟩,
   ⟨"B", CatVal.intVal 1, "Both", CatVal.strVal "15-24", 2035, 4⟩,
   ⟨"C", CatVal.intVal 1, "Both", CatVal.strVal "15-24", 2035, 5⟩,
   ⟨"D", CatVal.intVal 1, "Both", CatVal.strVal "15-24", 2035, 6⟩]

/-- The same table with the sex column spelled `"both"`, as the spec writes it. -/
def c3RowsLower : List Row :=
  [⟨"A", CatVal.intVal 1, "both", CatVal.strVal "15-24", 2025, 1⟩,
   ⟨"B", CatVal.intVal 1, "both", CatVal.strVal "15-24", 2025, 2⟩,
   ⟨"C", CatVal.intVal 1, "both", CatVal.strVal "15-24", 2025, 3⟩,
   ⟨"B", CatVal.intVal 1, "both", CatVal.strVal "15-24", 2035, 4⟩,
   ⟨"C", CatVal.intVal 1, "both", CatVal.strVal "15-24", 2035, 5⟩,
   ⟨"D", CatVal.intVal 1, "both", CatVal.strVal "15-24", 2035, 6⟩]

/-- C3 counterexample: the extraction filter matches sex `"Both"`, not the
spec's `"both"`. On a table whose sex column is literally `"both"`, the
claim's own filter (`sliceFilterSpec`) would produce exactly the paired
countries B and C, yet the code's extraction fails (its slice is empty, so no
years are available). -/
theorem extract_sex_case_counterexample :
    extract c3RowsLower (CatVal.intVal 1) (CatVal.strVal "15-24") =
      .error (.missingYears []) ∧
    mergeInner
      (projectYear (sliceFilterSpec c3RowsLower (CatVal.intVal 1) (CatVal.strVal "15-24")) 2025)
      (projectYear (sliceFilterSpec c3RowsLower (CatVal.intVal 1) (CatVal.strVal "15-24")) 2035) =
      [⟨"B", 2, 4⟩, ⟨"C", 3, 5⟩] :=
  ⟨rfl, rfl⟩

/-- C3 (amended to the code's sex literal `"Both"`): a successful extraction
returns exactly the inner join of the two yearly projections of the filtered
slice: a country appears iff it appears in both yearly projections, and every
output row pairs that country's near-year value with its far-year value. -/
theorem extract_inner_join (rows : List Row) (scen age : CatVal) (M : List Merged)
    (h : extract rows scen age = .ok M) :
    M = mergeInner (projectYear (sliceFilter rows scen age) 2025)
        (projectYear (sliceFilter rows scen age) 2035) ∧
    (∀ c : String,
      (∃ m ∈ M, m.iso3 = c) ↔
        (∃ p ∈ projectYear (sliceFilter rows scen age) 2025, p.1 = c) ∧
        (∃ q ∈ projectYear (sliceFilter rows scen age) 2035, q.1 = c)) ∧
    (∀ m ∈ M, (m.iso3, m.mys_2025) ∈ projectYear (sliceFilter rows scen age) 2025 ∧
        (m.iso3, m.mys_2035) ∈ projectYear (sliceFilter rows scen age) 2035) := by
  simp only [extract] at h
  split at h
  · exact absurd h (by simp)
  · split at h
    · exact absurd h (by simp)
    · injection h with h
      subst h
      refine ⟨rfl, ?_, ?_⟩
      · intro c
        exact mergeInner_iso3_mem _ _ c
      · intro m hm
        exact mergeInner_pairs _ _ m hm

/-- C3 witness: on the A,B,C / B,C,D table the successful extraction result
`[⟨B,2,4⟩, ⟨C,3,5⟩]` is exactly the inner join of the two projections. -/
theorem extract_inner_join_witness :
    ([⟨"B", 2, 4⟩, ⟨"C", 3, 5⟩] : List Merged) =
      mergeInner
        (projectYear (sliceFilter c3Rows (CatVal.intVal 1) (CatVal.strVal "15-24")) 2025)
        (projectYear (sliceFilter c3Rows (CatVal.intVal 1) (CatVal.strVal "15-24")) 2035) :=
  (extract_inner_join c3Rows (CatVal.intVal 1) (CatVal.strVal "15-24")
    [⟨"B", 2, 4⟩, ⟨"C", 3, 5⟩] rfl).1

/-- C4: `adjust` maps each merged row to an adjusted row with the same
country and unchanged near/far columns, `mys_2035_sim = mys_2035 + delta`
and `delta_2035_2025 = mys_2035 + delta - mys_2025`; no row is dropped
(`Forall₂` pairs the tables row by row), delta is not clamped, and at
delta = 0 the simulated column equals the far column. -/
theorem adjust_rowwise (t : List Merged) (d : ℚ) :
    List.Forall₂ (fun (r : Merged) (a : AdjRow) =>
      a.iso3 = r.iso3 ∧ a.mys_2025 = r.mys_2025 ∧ a.mys_2035 = r.mys_2035 ∧
      a.mys_2035_sim = r.mys_2035 + d ∧
      a.delta_2035_2025 = r.mys_2035 + d - r.mys_2025) t (adjust t d) ∧
    (∀ a ∈ adjust t 0, a.mys_2035_sim = a.mys_2035 ∧
      a.delta_2035_2025 = a.mys_2035 - a.mys_2025) := by
  constructor
  · induction t with
    | nil => exact List.Forall₂.nil
    | cons r t ih => exact List.Forall₂.cons ⟨rfl, rfl, rfl, rfl, rfl⟩ ih
  · intro a ha
    simp only [adjust, List.mem_map] at ha
    obtain ⟨r, hr, rfl⟩ := ha
    constructor <;> simp

/-- C4 witness: on the one-row table with near 8 and far 9, `adjust _ 0`
yields `mys_2035_sim = mys_2035 = 9` and `delta_2035_2025 = 9 - 8`. -/
theorem adjust_rowwise_witness :
    (AdjRow.mk "X" 8 9 9 1).mys_2035_sim = (AdjRow.mk "X" 8 9 9 1).mys_2035 ∧
    (AdjRow.mk "X" 8 9 9 1).delta_2035_2025 =
      (AdjRow.mk "X" 8 9 9 1).mys_2035 - (AdjRow.mk "X" 8 9 9 1).mys_2025 :=
  (adjust_rowwise [Merged.mk "X" 8 9] 0).2 (AdjRow.mk "X" 8 9 9 1) (by
    norm_num [adjust])

/-- C5: the shared color range is a function of the unadjusted `mys_2025` and
`mys_2035` columns alone, so two runs of `adjust` that differ only in delta
yield the same `(baseline_min, baseline_max)` pair. -/
theorem baseline_range_stable (t : List Merged) (d1 d2 : ℚ) :
    baselineRange (adjust t d1) = baselineRange (adjust t d2) ∧
    baselineRange (adjust t d1) = baselineRangeOfMerged t := by
  have h : ∀ d : ℚ, baselineRange (adjust t d) = baselineRangeOfMerged t := by
    intro d
    rw [baselineRange, baselineRangeOfMerged, (adjust_cols t d).1, (adjust_cols t d).2]
  exact ⟨(h d1).trans (h d2).symm, h d1⟩

/-- C8 counterexample: in the float64 arithmetic the program actually uses,
additive composition fails. On the one-row table whose far value is the
double nearest 0.1, with deltas the doubles nearest 0.2 and 0.3 (their sum
computed in float64 is exactly 1/2), the left side is the double below 0.6
(0.59999999999999997…) while the right side is the double 0.6000000000000001,
so the two simulated columns differ. -/
theorem adjust_additive_float_counterexample :
    (adjustFloat c8Table (floatAdd dbl02 dbl03)).map AdjRow.mys_2035_sim =
        [(5404319552844595 : ℚ) / 9007199254740992] ∧
    (adjustFloat c8Table dbl02).map (fun a => floatAdd a.mys_2035_sim dbl03) =
        [(5404319552844596 : ℚ) / 9007199254740992] ∧
    (adjustFloat c8Table (floatAdd dbl02 dbl03)).map AdjRow.mys_2035_sim ≠
      (adjustFloat c8Table dbl02).map (fun a => floatAdd a.mys_2035_sim dbl03) := by
  have h1 : (adjustFloat c8Table (floatAdd dbl02 dbl03)).map AdjRow.mys_2035_sim =
      [(5404319552844595 : ℚ) / 9007199254740992] := by
    simp [adjustFloat, c8Table, floatAdd_02_03, floatAdd_01_half]
  have h2 : (adjustFloat c8Table dbl02).map (fun a => floatAdd a.mys_2035_sim dbl03) =
      [(5404319552844596 : ℚ) / 9007199254740992] := by
    simp [adjustFloat, c8Table, floatAdd_01_02, floatAdd_0102_03]
  refine ⟨h1, h2, ?_⟩
  rw [h1, h2]
  simp only [ne_eq, List.cons.injEq, and_true]
  norm_num

/-- C8 (amended): additive composition holds for the adjuster's arithmetic
idealized as exact rational (real-number) addition: the simulated far column
of `adjust t (d1 + d2)` equals the simulated far column of `adjust t d1`
shifted by `d2`, row by row. In the program's float64 arithmetic the equality
is only approximate and can fail by one unit in the last place. -/
theorem adjust_additive (t : List Merged) (d1 d2 : ℚ) :
    (adjust t (d1 + d2)).map AdjRow.mys_2035_sim =
      (adjust t d1).map (fun a => a.mys_2035_sim + d2) := by
  simp [adjust, List.map_map, Function.comp, add_assoc]

theorem mergeInner_nil_right (l : List (String × ℚ)) : mergeInner l [] = [] := by
  induction l with
  | nil => rfl
  | cons a l ih => simp [mergeInner]

theorem mergeInner_length (l r : List (String × ℚ)) :
    (mergeInner l r).length =
      (l.map (fun a => (r.filter (fun b => b.1 == a.1)).length)).sum := by
  induction l with
  | nil => rfl
  | cons a l ih =>
    simp only [mergeInner, List.flatMap_cons, List.length_append, List.length_map,
      List.map_cons, List.sum_cons] at ih ⊢
    omega

/-- Table whose slice has years 2020 and 2030 only (sex spelled `"Both"`). -/
def c6Rows : List Row :=
  [⟨"A", CatVal.intVal 1, "Both", CatVal.strVal "15-24", 2020, 1⟩,
   ⟨"A", CatVal.intVal 1, "Both", CatVal.strVal "15-24", 2030, 2⟩]

/-- Table with years 2025/2035, one overlapping country, sex spelled `"both"`. -/
def c6RowsLower : List Row :=
  [⟨"A", CatVal.intVal 1, "both", CatVal.strVal "15-24", 2025, 1⟩,
   ⟨"A", CatVal.intVal 1, "both", CatVal.strVal "15-24", 2035, 2⟩]

/-- C6 counterexample: the failure conditions are judged on the code's
`"Both"`-filtered subset, not the spec's `"both"`-filtered one. On a table
whose sex column is literally `"both"`, the claim's subset contains both
target years and a non-empty join, so under the claim extraction must
succeed; the code nevertheless fails (and reports `[]` as available years). -/
theorem extract_error_sex_case_counterexample :
    extract c6RowsLower (CatVal.intVal 1) (CatVal.strVal "15-24") =
      .error (.missingYears []) ∧
    (2025 : Int) ∈
      availableYears (sliceFilterSpec c6RowsLower (CatVal.intVal 1) (CatVal.strVal "15-24")) ∧
    (2035 : Int) ∈
      availableYears (sliceFilterSpec c6RowsLower (CatVal.intVal 1) (CatVal.strVal "15-24")) ∧
    mergeInner
      (projectYear (sliceFilterSpec c6RowsLower (CatVal.intVal 1) (CatVal.strVal "15-24")) 2025)
      (projectYear (sliceFilterSpec c6RowsLower (CatVal.intVal 1) (CatVal.strVal "15-24")) 2035) =
      [⟨"A", 1, 2⟩] :=
  ⟨rfl, by decide, by decide, rfl⟩

/-- C6 (amended to the code's sex literal `"Both"`): extraction fails exactly
when 2025 or 2035 is absent from the filtered subset's available years — in
which case the error carries that (sorted) year list — or when the inner join
is empty — in which case the error is the no-overlap one; otherwise it
returns the join. -/
theorem extract_error_characterization (rows : List Row) (scen age : CatVal)
    (yrs : List Int) (m : List Merged)
    (hy : yrs = availableYears (sliceFilter rows scen age))
    (hm : m = mergeInner (projectYear (sliceFilter rows scen age) 2025)
        (projectYear (sliceFilter rows scen age) 2035)) :
    ((∃ e, extract rows scen age = .error e) ↔
      ((2025 : Int) ∉ yrs ∨ (2035 : Int) ∉ yrs ∨ m = [])) ∧
    (((2025 : Int) ∉ yrs ∨ (2035 : Int) ∉ yrs) →
      extract rows scen age = .error (.missingYears yrs)) ∧
    ((2025 : Int) ∈ yrs → (2035 : Int) ∈ yrs → m = [] →
      extract rows scen age = .error .noOverlap) ∧
    ((2025 : Int) ∈ yrs → (2035 : Int) ∈ yrs → m ≠ [] →
      extract rows scen age = .ok m) := by
  subst hy
  subst hm
  refine ⟨⟨?_, ?_⟩, ?_, ?_, ?_⟩
  · rintro ⟨e, he⟩
    simp only [extract] at he
    split at he
    · rename_i hc
      tauto
    · split at he
      · rename_i hm0
        exact Or.inr (Or.inr hm0)
      · exact absurd he (by simp)
  · intro hc
    simp only [extract]
    split
    · exact ⟨_, rfl⟩
    · rename_i hcond
      push_neg at hcond
      split
      · exact ⟨_, rfl⟩
      · rename_i hm0
        rcases hc with h | h | h
        · exact absurd hcond.1 h
        · exact absurd hcond.2 h
        · exact absurd h hm0
  · intro hc
    simp only [extract]
    rw [if_pos hc]
  · intro h1 h2 h3
    simp only [extract]
    rw [if_neg (by push_neg; exact ⟨h1, h2⟩), if_pos h3]
  · intro h1 h2 h3
    simp only [extract]
    rw [if_neg (by push_neg; exact ⟨h1, h2⟩), if_neg h3]

/-- C6 witness: with available years 2020 and 2030 only, extraction fails
with the error listing `[2020, 2030]`. -/
theorem extract_error_characterization_witness :
    extract c6Rows (CatVal.intVal 1) (CatVal.strVal "15-24") =
      .error (.missingYears [2020, 2030]) :=
  (extract_error_characterization c6Rows (CatVal.intVal 1) (CatVal.strVal "15-24")
    [2020, 2030] [] rfl rfl).2.1 (by decide)

/-- Table with a duplicated (country, year) key: country A appears twice in
2025 (values 1 and 2) and once in 2035 (value 3). -/
def c7Rows : List Row :=
  [⟨"A", CatVal.intVal 1, "Both", CatVal.strVal "15-24", 2025, 1⟩,
   ⟨"A", CatVal.intVal 1, "Both", CatVal.strVal "15-24", 2025, 2⟩,
   ⟨"A", CatVal.intVal 1, "Both", CatVal.strVal "15-24", 2035, 3⟩]

/-- C7 counterexample: the resolved slice of `c7Rows` holds two rows with the
same (country, year) key `("A", 2025)`, yet the pipeline raises no error and
silently returns a two-row result (one row per near/far pair). -/
theorem duplicate_keys_counterexample :
    ((sliceFilter c7Rows (CatVal.intVal 1) (CatVal.strVal "15-24")).filter
        (fun r => r.iso3 == "A" && r.year == 2025)).length = 2 ∧
    load_mys c7Rows = .ok ([⟨"A", 1, 3⟩, ⟨"A", 2, 3⟩], CatVal.strVal "15-24") :=
  ⟨rfl, rfl⟩

/-- C7 (amended): duplicate (country, year) keys are silently tolerated —
whenever both target years are present and the join is non-empty, extraction
succeeds with the join, whose size is the sum over near-year rows of the
number of far-year rows sharing the key (a cartesian product per key),
with no duplicate-key check anywhere. -/
theorem duplicate_keys_tolerated (rows : List Row) (scen age : CatVal)
    (h25 : (2025 : Int) ∈ availableYears (sliceFilter rows scen age))
    (h35 : (2035 : Int) ∈ availableYears (sliceFilter rows scen age))
    (hne : mergeInner (projectYear (sliceFilter rows scen age) 2025)
        (projectYear (sliceFilter rows scen age) 2035) ≠ []) :
    extract rows scen age = .ok
      (mergeInner (projectYear (sliceFilter rows scen age) 2025)
        (projectYear (sliceFilter rows scen age) 2035)) ∧
    (mergeInner (projectYear (sliceFilter rows scen age) 2025)
        (projectYear (sliceFilter rows scen age) 2035)).length =
      ((projectYear (sliceFilter rows scen age) 2025).map
        (fun a => ((projectYear (sliceFilter rows scen age) 2035).filter
          (fun b => b.1 == a.1)).length)).sum := by
  constructor
  · simp only [extract]
    rw [if_neg (by push_neg; exact ⟨h25, h35⟩), if_neg hne]
  · exact mergeInner_length _ _

/-- C7 witness: on the duplicated-key table, extraction succeeds and returns
the two-row cartesian pairing. -/
theorem duplicate_keys_tolerated_witness :
    extract c7Rows (CatVal.intVal 1) (CatVal.strVal "15-24") =
      .ok [⟨"A", 1, 3⟩, ⟨"A", 2, 3⟩] := by
  have h := (duplicate_keys_tolerated c7Rows (CatVal.intVal 1) (CatVal.strVal "15-24")
    (by decide) (by decide) (by decide)).1
  rw [h]
  rfl

/-- The end-to-end example table, in the code's sex spelling `"Both"`. -/
def c9Rows : List Row :=
  [⟨"XYZ", CatVal.intVal 1, "Both", CatVal.strVal "15-24", 2025, 8⟩,
   ⟨"XYZ", CatVal.intVal 1, "Both", CatVal.strVal "15-24", 2035, 9⟩]

/-- The end-to-end example table exactly as the claim words it: sex `both`. -/
def c9RowsLower : List Row :=
  [⟨"XYZ", CatVal.intVal 1, "both", CatVal.strVal "15-24", 2025, 8⟩,
   ⟨"XYZ", CatVal.intVal 1, "both", CatVal.strVal "15-24", 2035, 9⟩]

/-- C9 counterexample: on the claim's literal input (sex spelled `both`, as
the code reads a `sex` column containing `"both"`) the pipeline does not
produce the claimed row at all — the code's `"Both"` filter empties the
slice and `load_mys` fails. -/
theorem end_to_end_counterexample :
    load_mys c9RowsLower = .error (.missingYears []) := rfl

/-- C9 (amended to the code's sex literal `"Both"`): resolve → extract →
adjust with delta 1.5 on the two-row example yields the single row
(XYZ, near 8, far 9, simulated 10.5, delta 2.5). -/
theorem end_to_end_example :
    load_mys c9Rows = .ok ([⟨"XYZ", 8, 9⟩], CatVal.strVal "15-24") ∧
    adjust [⟨"XYZ", 8, 9⟩] (3 / 2) = [⟨"XYZ", 8, 9, 21 / 2, 5 / 2⟩] := by
  refine ⟨rfl, ?_⟩
  norm_num [adjust]

/-- Table whose slice has the single year 2030. -/
def c10Rows : List Row :=
  [⟨"A", CatVal.intVal 1, "Both", CatVal.strVal "15-24", 2030, 1⟩]

/-- C10: whenever a target year is absent from the filtered slice, the error
raised is the missing-year one carrying the sorted available-years list,
never the no-overlap one — the year check precedes the join-emptiness check,
even though the join is indeed empty under that condition. -/
theorem missing_year_precedence (rows : List Row) (scen age : CatVal)
    (h : (2025 : Int) ∉ availableYears (sliceFilter rows scen age) ∨
      (2035 : Int) ∉ availableYears (sliceFilter rows scen age)) :
    extract rows scen age =
      .error (.missingYears (availableYears (sliceFilter rows scen age))) ∧
    extract rows scen age ≠ .error .noOverlap ∧
    mergeInner (projectYear (sliceFilter rows scen age) 2025)
      (projectYear (sliceFilter rows scen age) 2035) = [] := by
  have hext : extract rows scen age =
      .error (.missingYears (availableYears (sliceFilter rows scen age))) := by
    simp only [extract]
    rw [if_pos h]
  refine ⟨hext, ?_, ?_⟩
  · rw [hext]
    simp
  · rcases h with h | h
    · have hp : projectYear (sliceFilter rows scen age) 2025 = [] := by
        apply projectYear_eq_nil
        intro r hr hy
        exact h ((mem_availableYears _ _).mpr ⟨r, hr, hy⟩)
      rw [hp, mergeInner_nil_left]
    · have hp : projectYear (sliceFilter rows scen age) 2035 = [] := by
        apply projectYear_eq_nil
        intro r hr hy
        exact h ((mem_availableYears _ _).mpr ⟨r, hr, hy⟩)
      rw [hp, mergeInner_nil_right]

/-- C10 witness: with the single available year 2030, extraction fails with
the missing-year error listing `[2030]`. -/
theorem missing_year_precedence_witness :
    extract c10Rows (CatVal.intVal 1) (CatVal.strVal "15-24") =
      .error (.missingYears [2030]) :=
  (missing_year_precedence c10Rows (CatVal.intVal 1) (CatVal.strVal "15-24")
    (by decide)).1

example : strHasSub "youth 15-24 yrs" "15-24" = true := by decide
example : strHasSub "65+" "15" = false := by decide
example : detectSSP1 [CatVal.strVal "SSP1", CatVal.intVal 1] = some (CatVal.intVal 1) := by decide
example : detectYouth [CatVal.strVal "0-14", CatVal.strVal "25-64",
    CatVal.strVal "65+", CatVal.strVal "15+"] = some (CatVal.strVal "15+") := by decide
example :
    load_mys [⟨"XYZ", CatVal.intVal 1, "Both", CatVal.strVal "15-24", 2025, 8⟩,
      ⟨"XYZ", CatVal.intVal 1, "Both", CatVal.strVal "15-24", 2035, 9⟩] =
      .ok ([⟨"XYZ", 8, 9⟩], CatVal.strVal "15-24") := by rfl
example :
    load_mys [⟨"XYZ", CatVal.intVal 1, "both", CatVal.strVal "15-24", 2025, 8⟩,
      ⟨"XYZ", CatVal.intVal 1, "both", CatVal.strVal "15-24", 2035, 9⟩] =
      .error (.missingYears []) := by rfl

end DataDive
